import Mathlib

/-!
Verification of the cURL-to-OpenAPI documentation pipeline
(`backend/services/docs_service.py`).

The Python source is shallowly embedded: every function of the service that
the verified properties touch is translated into a total, executable Lean
definition over an explicit data model.  Python `dict`s (which preserve
insertion order) are modelled as ordered association lists with
overwrite-in-place update semantics; Python strings are Lean `String`s and
all slicing/case operations work on code points, as in Python.

Python standard-library primitives that the service merely calls
(`json.loads`, `json.dumps`, `ast.literal_eval`, `codecs`
unicode-escape decoding) are not part of the repository; they are modelled
as parameters collected in the `PyEnv` structure, so every theorem holds
for an arbitrary implementation of them, and concrete witnesses instantiate
them with small executable stand-ins.
-/

set_option autoImplicit false

/-! ## Python string primitives -/

/-- Python `str.strip()` (no argument): trim whitespace from both ends
(implemented structurally over the character list so that it reduces in
the kernel; `Char.isWhitespace` covers the common ASCII whitespace). -/
def pyStrip (s : String) : String :=
  ⟨((s.data.dropWhile Char.isWhitespace).reverse.dropWhile Char.isWhitespace).reverse⟩

/-- Python `str.lower()` restricted to the basic-latin range, matching
`Char.toLower`. -/
def pyLower (s : String) : String := ⟨s.data.map Char.toLower⟩

/-- Python `str.upper()` restricted to the basic-latin range. -/
def pyUpper (s : String) : String := ⟨s.data.map Char.toUpper⟩

/-- Python `str.startswith(pre)`. -/
def pyStartswith (s pre : String) : Bool := pre.data.isPrefixOf s.data

/-- Python `str.endswith(suf)`. -/
def pyEndswith (s suf : String) : Bool := suf.data.isSuffixOf s.data

/-- `pat` occurs as a contiguous run inside `l`. -/
def listContainsRun (pat : List Char) : List Char → Bool
  | [] => pat.isEmpty
  | c :: rest => pat.isPrefixOf (c :: rest) || listContainsRun pat rest

/-- Python `sub in s` (substring containment). -/
def pyContains (s sub : String) : Bool := listContainsRun sub.data s.data

/-- Python `str.lstrip(chars)`: drop leading characters that belong to the
character set of `chars`. -/
def pyLstripChars (chars s : String) : String :=
  ⟨s.data.dropWhile (fun c => chars.data.contains c)⟩

/-- Python `str.rstrip(chars)`. -/
def pyRstripChars (chars s : String) : String :=
  ⟨(s.data.reverse.dropWhile (fun c => chars.data.contains c)).reverse⟩

/-- Python `str.strip(chars)`: drop characters of the set from both ends. -/
def pyStripChars (chars s : String) : String :=
  pyRstripChars chars (pyLstripChars chars s)

/-- Python `s[n:]` (code-point slicing, structural). -/
def pyDrop (s : String) (n : Nat) : String := ⟨s.data.drop n⟩

/-- Python `s[:n]` (code-point slicing, structural). -/
def pyTake (s : String) (n : Nat) : String := ⟨s.data.take n⟩

/-- Python `s.split(sep)` for a one-character separator (no maxsplit):
`"" → [""]`, adjacent separators produce empty chunks. -/
def pySplitCharAux (sep : Char) : List Char → List Char → List String
  | buf, [] => [⟨buf.reverse⟩]
  | buf, c :: rest =>
    if c = sep then ⟨buf.reverse⟩ :: pySplitCharAux sep [] rest
    else pySplitCharAux sep (c :: buf) rest

def pySplitChar (sep : Char) (s : String) : List String :=
  pySplitCharAux sep [] s.data

/-- Python `sep.join(parts)`. -/
def pyJoin (sep : String) : List String → String
  | [] => ""
  | x :: rest =>
    match rest with
    | [] => x
    | _ :: _ => x ++ sep ++ pyJoin sep rest

/-- Python `s.split(sep, 1)` for a one-character separator, as
`some (before, after)` when the separator occurs, else `none`
(callers emulate the "no separator" list shape themselves). -/
def splitFirstChar (sep : Char) (s : String) : Option (String × String) :=
  let pre := s.data.takeWhile (fun c => c ≠ sep)
  if pre.length = s.data.length then none
  else some (⟨pre⟩, ⟨s.data.drop (pre.length + 1)⟩)

/-- Core loop of Python `str.replace(pat, repl)` for the non-empty pattern
`p :: ps`: replace every non-overlapping occurrence, scanning left to
right.  The `fuel` argument makes the recursion structural (so the kernel
can evaluate it); it is called with `fuel = l.length`, which the invariant
`l.length ≤ fuel` keeps sufficient, so the `0, c :: rest` branch is never
reached. -/
def pyReplaceAux (p : Char) (ps repl : List Char) : Nat → List Char → List Char
  | _, [] => []
  | 0, l => l
  | fuel + 1, c :: rest =>
    if (p :: ps).isPrefixOf (c :: rest) then
      repl ++ pyReplaceAux p ps repl fuel (rest.drop ps.length)
    else
      c :: pyReplaceAux p ps repl fuel rest

/-- Python `str.replace(pat, repl)` (all occurrences).  The empty-pattern
case inserts `repl` at every position, as CPython does; the service only
ever calls it with non-empty patterns. -/
def pyReplace (s pat repl : String) : String :=
  match pat.data with
  | [] => ⟨repl.data ++ s.data.flatMap (fun c => c :: repl.data)⟩
  | p :: ps => ⟨pyReplaceAux p ps repl.data s.data.length s.data⟩

/-- CPython `repr` of a string over the printable-ASCII range: single
quotes unless the string has a single quote and no double quote; escape
backslash, the quote character, and the common control characters. -/
def pyReprChar (q c : Char) : String :=
  if c = '\\' then "\\\\"
  else if c = q then "\\" ++ ⟨[q]⟩
  else if c = '\n' then "\\n"
  else if c = '\r' then "\\r"
  else if c = '\t' then "\\t"
  else ⟨[c]⟩

def pyRepr (s : String) : String :=
  let q : Char :=
    if s.data.contains '\x27' ∧ ¬ s.data.contains '"' then '"' else '\x27'
  ⟨[q]⟩ ++ pyJoin "" (s.data.map (pyReprChar q)) ++ ⟨[q]⟩

/-- Python `str(list_of_strings)`: `repr` of each element, comma-joined in
square brackets. -/
def pyStrList (l : List String) : String :=
  "[" ++ pyJoin ", " (l.map pyRepr) ++ "]"

/-! ## JSON values and the standard-library environment -/

/-- JSON-shaped Python values (`json.loads` results, `json.dumps` inputs,
and raw strings flowing through `_coerce_json`).  Objects keep key order. -/
inductive Json where
  | null : Json
  | bool : Bool → Json
  | num : Int → Json
  | str : String → Json
  | arr : List Json → Json
  | obj : List (String × Json) → Json

/-- The Python standard-library functions the service calls.  They live
outside the repository, so they are parameters of the embedding: every
theorem is proved for an arbitrary `PyEnv`. `loads`/`literal_eval`
return `none` where the Python call would raise (the service guards every
call site with `try/except`); `unicode_unescape` models
`raw.encode('utf-8').decode('unicode_escape')`. -/
structure PyEnv where
  loads : String → Option Json
  literal_eval : String → Option Json
  dumps : Json → String
  dumps_pretty : Json → String
  unicode_unescape : String → Option String

/-! ## `_shell_split` -/

/-- The loop of `_shell_split`: `quote` is the open quote character (if
any), `buf` the current token accumulated in reverse. -/
def shellSplitAux : Option Char → List Char → List Char → List String
  | _, buf, [] => if buf.isEmpty then [] else [⟨buf.reverse⟩]
  | some q, buf, c :: rest =>
    if c = q then shellSplitAux none buf rest
    else shellSplitAux (some q) (c :: buf) rest
  | none, buf, c :: rest =>
    if c = '\x27' ∨ c = '"' then shellSplitAux (some c) buf rest
    else if c.isWhitespace then
      if buf.isEmpty then shellSplitAux none [] rest
      else ⟨buf.reverse⟩ :: shellSplitAux none [] rest
    else shellSplitAux none (c :: buf) rest

/-- `_shell_split`: lightweight splitter respecting single/double quotes. -/
def shell_split (s : String) : List String :=
  shellSplitAux none [] s.data

/-! ## Flag scanners over the token list -/

/-- `_parse_headers`: every `-H`/`--header` with a following token
contributes a `Key: Value` entry; later duplicate keys overwrite earlier
ones (Python dict assignment).  The scan advances one token at a time, so
a value token is itself inspected as a potential flag, as in the Python
`enumerate` loop. -/
def parseHeadersAux (acc : List (String × String)) : List String → List (String × String)
  | tok :: next :: rest =>
    if tok = "-H" ∨ tok = "--header" then
      let raw := pyStripChars "\x27\"" (pyStrip next)
      match splitFirstChar ':' raw with
      | some (k, v) => parseHeadersAux (dictSet (pyStrip k) (pyStrip v) acc) (next :: rest)
      | none => parseHeadersAux acc (next :: rest)
    else parseHeadersAux acc (next :: rest)
  | _ => acc
where
  /-- Python `d[k] = v` on an insertion-ordered dict: overwrite in place
  if the key exists, else append. -/
  dictSet {α : Type} (k : String) (v : α) : List (String × α) → List (String × α)
    | [] => [(k, v)]
    | (k0, v0) :: t => if k0 = k then (k0, v) :: t else (k0, v0) :: dictSet k v t

def parse_headers (tokens : List String) : List (String × String) :=
  parseHeadersAux [] tokens

/-- `_parse_data`: first `-d`/`--data`/`--data-raw`/`--data-binary` with a
following token; quote-stripped, then best-effort unicode-escape decoded
(falling back to the raw text when decoding would raise). -/
def parse_data (env : PyEnv) : List String → Option String
  | tok :: next :: rest =>
    if tok = "-d" ∨ tok = "--data" ∨ tok = "--data-raw" ∨ tok = "--data-binary" then
      let raw := pyStripChars "\x27\"" (pyStrip next)
      some ((env.unicode_unescape raw).getD raw)
    else parse_data env (next :: rest)
  | _ => none

/-- `_parse_method`: first `-X`/`--request` with a following token,
stripped and upper-cased. -/
def parse_method : List String → Option String
  | tok :: next :: rest =>
    if tok = "-X" ∨ tok = "--request" then some (pyUpper (pyStrip next))
    else parse_method (next :: rest)
  | _ => none

/-- Python `x or default` for an optional string (`None` and `""` are
falsy). -/
def pyOrStr (o : Option String) (d : String) : String :=
  match o with
  | some s => if s = "" then d else s
  | none => d

/-- Last `--url` value in the token list, if any (later occurrences
overwrite earlier ones in the Python loop). -/
def lastUrlFlag : List String → Option String
  | tok :: next :: rest =>
    if tok = "--url" then
      match lastUrlFlag (next :: rest) with
      | some u => some u
      | none => some next
    else lastUrlFlag (next :: rest)
  | _ => none

/-- `_parse_url`: prefer the (last) `--url` value; if that is missing or
empty, take the last token that looks like a URL; strip whitespace and
quotes; an empty result means `None`. -/
def parse_url (tokens : List String) : Option String :=
  let u0 := lastUrlFlag tokens
  let u1 :=
    match u0 with
    | some u => if u ≠ "" then u0 else
        match tokens.reverse.find? (fun t =>
          pyStartswith t "http://" || pyStartswith t "https://" || pyStartswith t "/") with
        | some t => some t
        | none => u0
    | none => tokens.reverse.find? (fun t =>
        pyStartswith t "http://" || pyStartswith t "https://" || pyStartswith t "/")
  match u1 with
  | some u =>
    if u ≠ "" then some (pyStripChars "\x27\"" (pyStrip u)) else none
  | none => none

/-! ## `parse_curl` -/

/-- A parsed request: the dict `{method, url, headers, body}` returned by
`parse_curl`. -/
structure Request where
  method : String
  url : String
  headers : List (String × String)
  body : Option String
deriving DecidableEq, Repr

/-- Assembly of a `Request` from a token list (the body of `parse_curl`
after tokenization). -/
def parseCurlFromTokens (env : PyEnv) (tokens : List String) : Request :=
  let body_peek := parse_data env tokens
  let method := pyOrStr (parse_method tokens) (if body_peek.isSome then "POST" else "GET")
  let url := pyOrStr (parse_url tokens) "/"
  let headers := parse_headers tokens
  { method := method, url := url, headers := headers, body := body_peek }

/-- The token list `parse_curl` actually consumes:
`_shell_split(curl_cmd.strip().lstrip("curl "))`.  Note that `lstrip`
takes a character *set*, not a prefix. -/
def curlTokens (curl_cmd : String) : List String :=
  shell_split (pyLstripChars "curl " (pyStrip curl_cmd))

/-- `parse_curl`. -/
def parse_curl (env : PyEnv) (curl_cmd : String) : Request :=
  parseCurlFromTokens env (curlTokens curl_cmd)

/-! ## `parse_curl_inputs` -/

/-- The request-assembly stage of `parse_curl_inputs` (lines 164–187),
taking the already-normalized chunk list produced by `_normalize_curls`:
chunks starting with `"curl "` are parsed; if none did and the leftover
chunks are non-empty, their newline-joined concatenation is tried as JSON
and, on success, yields the single fallback `POST /` request. -/
def parse_curl_inputs (env : PyEnv) (curls : List String) : List Request :=
  let requests := (curls.filter (fun c => pyStartswith c "curl ")).map (parse_curl env)
  let leftovers := curls.filter (fun c => ¬ pyStartswith c "curl ")
  if requests = [] ∧ leftovers ≠ [] then
    let combined := pyStrip (pyJoin "\n" leftovers)
    match env.loads combined with
    | some parsed_json =>
      [{ method := "POST", url := "/",
         headers := [("Content-Type", "application/json")],
         body := some (env.dumps parsed_json) }]
    | none => []
  else requests

/-! ## `_coerce_json` -/

/-- First index of `c` in `l`, if any. -/
def firstIdxOf (c : Char) (l : List Char) : Option Nat := l.findIdx? (fun x => x = c)

/-- Last index of `c` in `l`, if any. -/
def lastIdxOf (c : Char) (l : List Char) : Option Nat :=
  (l.reverse.findIdx? (fun x => x = c)).map (fun i => l.length - 1 - i)

/-- `re.sub(r'\\([{}\[\]"])', r'\1', txt)`: drop a backslash immediately
preceding one of `{ } [ ] "`, left to right, non-overlapping. -/
def stripBackslashBeforeBrackets : List Char → List Char
  | '\\' :: c :: rest =>
    if c = '{' ∨ c = '}' ∨ c = '[' ∨ c = ']' ∨ c = '"' then
      c :: stripBackslashBeforeBrackets rest
    else '\\' :: stripBackslashBeforeBrackets (c :: rest)
  | c :: rest => c :: stripBackslashBeforeBrackets rest
  | [] => []

/-- The normalization candidates `_coerce_json` tries, in order: the
substring from the first `{` to the last `}` (when both occur in that
order), then the four escape-normalization rewrites. -/
def coerceCandidates (txt : String) : List String :=
  (match firstIdxOf '{' txt.data, lastIdxOf '}' txt.data with
   | some start, some lst =>
     if lst + 1 > start then [⟨(txt.data.drop start).take (lst + 1 - start)⟩] else []
   | _, _ => []) ++
  [ pyReplace txt "\\\"" "\"",
    pyReplace txt "\\/" "/",
    pyReplace txt "\\n" "",
    ⟨stripBackslashBeforeBrackets txt.data⟩ ]

/-- `_coerce_json`: strict parse of the stripped text, then each candidate
in order, then `ast.literal_eval`, else the original string unchanged. -/
def coerce_json (env : PyEnv) (value : String) : Json :=
  let txt := pyStrip value
  match env.loads txt with
  | some j => j
  | none =>
    match (coerceCandidates txt).findSome? env.loads with
    | some j => j
    | none =>
      match env.literal_eval txt with
      | some j => j
      | none => Json.str value

/-! ## OpenAPI data model

Structures mirror the dict shapes `build_openapi_from_requests` builds.
Mappings that the code iterates or updates (`paths`, its per-path method
maps, `responses`) are ordered association lists. -/

/-- An entry of an Operation's `parameters` list.  `location` models the
`"in"` key; `required` is absent (`none`) except for the path parameter;
`schemaType` models `schema.type` (always `"string"` here); `exampleVal`
models the `example` key of header parameters. -/
structure Param where
  location : String
  name : String
  required : Option Bool
  schemaType : String
  exampleVal : Option String
deriving DecidableEq, Repr

/-- A `responses` entry: `hasJsonObjectContent` records whether the entry
carries `content: {application/json: {schema: {type: object}}}` (true only
for the synthesized `200`). -/
structure ResponseObj where
  description : String
  hasJsonObjectContent : Bool
deriving DecidableEq, Repr

/-- `requestBody.content.application/json`. -/
structure RequestBody where
  schemaType : String
  exampleVal : Json

/-- One operation (a method entry under a path). -/
structure Operation where
  summary : String
  operationId : String
  tags : List String
  parameters : List Param
  responses : List (String × ResponseObj)
  requestBody : Option RequestBody
  description : Option String

/-- A `components.securitySchemes` value. -/
structure SecurityScheme where
  schemeType : String
  scheme : Option String
  bearerFormat : Option String
  location : Option String
  name : Option String
deriving DecidableEq, Repr

def bearerAuthScheme : SecurityScheme :=
  { schemeType := "http", scheme := some "bearer", bearerFormat := some "JWT",
    location := none, name := none }

def apiKeyAuthScheme : SecurityScheme :=
  { schemeType := "apiKey", scheme := none, bearerFormat := none,
    location := some "header", name := some "X-API-Key" }

/-- The synthesized OpenAPI document.  `components.schemas` is always the
empty dict and is omitted; a `security` entry `{"name": []}` is modelled
by the scheme name; an absent top-level `security` key is the empty
list. -/
structure OpenApiDoc where
  openapiVersion : String
  infoTitle : String
  infoVersion : String
  servers : List String
  paths : List (String × List (String × Operation))
  securitySchemes : List (String × SecurityScheme)
  security : List String

/-! ## URL and path helpers -/

/-- `re.match(r"^(https?://[^/]+)", url)`: the scheme plus non-empty
host, when the URL starts with one. -/
def matchSchemeHost (url : String) : Option String :=
  if pyStartswith url "http://" then
    let host : String := ⟨(url.data.drop 7).takeWhile (fun c => c ≠ '/')⟩
    if host = "" then none else some ("http://" ++ host)
  else if pyStartswith url "https://" then
    let host : String := ⟨(url.data.drop 8).takeWhile (fun c => c ≠ '/')⟩
    if host = "" then none else some ("https://" ++ host)
  else none

/-- `_infer_base_url`: a non-empty hint wins (right-stripped of `/`);
else the first request URL with a `scheme://host` prefix provides it. -/
def infer_base_url (requests : List Request) (hint : Option String) : Option String :=
  let scan : Option String :=
    requests.findSome? (fun r => (matchSchemeHost r.url).map (pyRstripChars "/"))
  match hint with
  | some h => if h ≠ "" then some (pyRstripChars "/" h) else scan
  | none => scan

/-- Group 1 of `re.match(r"^https?://[^/]+(.*)$", url)`: everything after
the host, when the URL has a scheme and non-empty host. -/
def splitSchemeRest (url : String) : Option String :=
  if pyStartswith url "http://" then
    let after := url.data.drop 7
    let host := after.takeWhile (fun c => c ≠ '/')
    if host = [] then none else some ⟨after.drop host.length⟩
  else if pyStartswith url "https://" then
    let after := url.data.drop 8
    let host := after.takeWhile (fun c => c ≠ '/')
    if host = [] then none else some ⟨after.drop host.length⟩
  else none

def pathFallback (url : String) : String :=
  match splitSchemeRest url with
  | some rest => if rest = "" then "/" else rest
  | none => if pyStartswith url "/" then url else "/" ++ url

/-- `_path_from_url`. -/
def path_from_url (url : String) (base_url : Option String) : String :=
  match base_url with
  | some b =>
    if b ≠ "" ∧ pyStartswith url b then
      let rest := pyDrop url b.length
      if rest = "" then "/" else rest
    else pathFallback url
  | none => pathFallback url

/-! ## Header masking and classification -/

/-- The case-insensitive sensitive-header test of `_mask_sensitive`. -/
def sensitiveKey (k : String) : Bool :=
  pyLower k == "authorization" || pyLower k == "x-api-key" || pyLower k == "api-key"

/-- `_mask_sensitive`: sensitive header values become `"***"`. -/
def mask_sensitive (headers : List (String × String)) : List (String × String) :=
  headers.map (fun kv => if sensitiveKey kv.1 then (kv.1, "***") else kv)

/-- The header loop of `build_openapi_from_requests`: a bearer-valued
`Authorization` or an API-key header only flips a flag; everything else
becomes a literal header parameter with its value as example. -/
def headerParamsOf (headers : List (String × String)) : List Param :=
  headers.filterMap (fun kv =>
    if pyLower kv.1 = "authorization" ∧ pyStartswith (pyLower kv.2) "bearer" then none
    else if pyLower kv.1 = "x-api-key" ∨ pyLower kv.1 = "api-key" then none
    else some { location := "header", name := kv.1, required := none,
                schemaType := "string", exampleVal := some kv.2 })

def sawBearer (headers : List (String × String)) : Bool :=
  headers.any (fun kv =>
    pyLower kv.1 == "authorization" && pyStartswith (pyLower kv.2) "bearer")

def sawApiKey (headers : List (String × String)) : Bool :=
  headers.any (fun kv => pyLower kv.1 == "x-api-key" || pyLower kv.1 == "api-key")

/-! ## Path templating and query parameters -/

/-- `re.fullmatch(r"[0-9a-fA-F-]{6,}", seg) or seg.isdigit()`. -/
def matchesIdSeg (seg : String) : Bool :=
  (decide (6 ≤ seg.length) &&
    seg.data.all (fun c => c.isDigit || (decide ('a' ≤ c) && decide (c ≤ 'f'))
      || (decide ('A' ≤ c) && decide (c ≤ 'F')) || c == '-'))
  || (decide (seg ≠ "") && seg.data.all Char.isDigit)

/-- The query-parameter loop: `?`-suffix split off, each non-empty `&`
chunk contributes a query parameter named by the part before the first
`=`. -/
def queryParamsOf (query : String) : List Param :=
  (pySplitChar '&' query).filterMap (fun q =>
    if q = "" then none
    else some { location := "query",
                name := (match splitFirstChar '=' q with
                         | some (n, _) => n
                         | none => q),
                required := none, schemaType := "string", exampleVal := none })

def idPathParam : Param :=
  { location := "path", name := "id", required := some true,
    schemaType := "string", exampleVal := none }

/-! ## Request body and responses -/

/-- The `requestBody` synthesis for a (truthy) body string. -/
def requestBodyOf (env : PyEnv) (body : String) : RequestBody :=
  let coerced := coerce_json env body
  match coerced with
  | Json.obj _ => { schemaType := "object", exampleVal := coerced }
  | Json.arr _ => { schemaType := "array", exampleVal := coerced }
  | _ =>
    match env.loads body with
    | some j => { schemaType := "object", exampleVal := j }
    | none => { schemaType := "string", exampleVal := Json.str body }

def ok200 : ResponseObj := { description := "OK", hasJsonObjectContent := true }

def stdErrorCodes : List (String × String) :=
  [("400", "Bad Request"), ("401", "Unauthorized"), ("403", "Forbidden"),
   ("404", "Not Found"), ("429", "Too Many Requests"), ("500", "Internal Server Error")]

/-- "Standard error responses if not already present": merge each code in
only when the key is absent. -/
def mergeStdResponses (rs : List (String × ResponseObj)) : List (String × ResponseObj) :=
  stdErrorCodes.foldl (fun acc cd =>
    if (acc.lookup cd.1).isSome then acc
    else acc ++ [(cd.1, { description := cd.2, hasJsonObjectContent := false })]) rs

/-- `re.sub(r"[^a-zA-Z0-9]", "_", s)`. -/
def sanitizeId (s : String) : String :=
  ⟨s.data.map (fun c => if c.isAlphanum then c else '_')⟩

/-! ## `build_openapi_from_requests` -/

/-- The per-request result of the synthesis loop body: the final path key,
the lower-cased method, the operation, and whether this request tripped
the bearer / API-key flags. -/
structure OpResult where
  path : String
  method : String
  op : Operation
  bearerFlag : Bool
  apiKeyFlag : Bool

/-- The path of a request after base-URL stripping and after the
`?query` suffix split, i.e. the value the id-segment templating loop
scans. -/
def preTemplatePath (base_url : Option String) (r : Request) : String :=
  let path0 := path_from_url r.url base_url
  match splitFirstChar '?' path0 with
  | some pq => pq.1
  | none => path0

/-- The loop body of `build_openapi_from_requests` for one request,
order-faithful: summary/operationId/tag are derived from the path while it
still carries its query suffix; then the query split, then the first
id-like segment is templated via a global `str.replace`, then headers are
classified, then the body, then the standard error responses are merged
in. -/
def buildRequestOp (env : PyEnv) (base_url : Option String) (r : Request) : OpResult :=
  let method := pyLower r.method
  let path0 := path_from_url r.url base_url
  let headers := mask_sensitive r.headers
  let tag :=
    match (pySplitChar '/' path0).filter (fun s => s ≠ "") with
    | t :: _ => if t = "" then "general" else t
    | [] => "general"
  let summary := pyUpper method ++ " " ++ path0
  let operationId := pyStripChars "_" (sanitizeId (method ++ "_" ++ path0))
  let queryParams :=
    match splitFirstChar '?' path0 with
    | some pq => queryParamsOf pq.2
    | none => []
  let path1 := preTemplatePath base_url r
  let tp :=
    match (pySplitChar '/' path1).find? matchesIdSeg with
    | some seg => (pyReplace path1 ("/" ++ seg) "/{id}", [idPathParam])
    | none => (path1, [])
  let requestBody :=
    match r.body with
    | some b => if b ≠ "" then some (requestBodyOf env b) else none
    | none => none
  { path := tp.1, method := method,
    op := { summary := summary, operationId := operationId, tags := [tag],
            parameters := queryParams ++ tp.2 ++ headerParamsOf headers,
            responses := mergeStdResponses [("200", ok200)],
            requestBody := requestBody, description := none },
    bearerFlag := sawBearer headers, apiKeyFlag := sawApiKey headers }

/-- `paths.setdefault(path, {})[method] = op`. -/
def pathsInsert (path method : String) (op : Operation) :
    List (String × List (String × Operation)) → List (String × List (String × Operation))
  | [] => [(path, [(method, op)])]
  | (p, ops) :: t =>
    if p = path then (p, methodSet ops) :: t
    else (p, ops) :: pathsInsert path method op t
where
  /-- `ops[method] = op` on the per-path method dict. -/
  methodSet : List (String × Operation) → List (String × Operation)
    | [] => [(method, op)]
    | (m, o) :: t => if m = method then (m, op) :: t else (m, o) :: methodSet t

/-- Accumulator of the synthesis loop. -/
structure BuildState where
  paths : List (String × List (String × Operation))
  usesBearer : Bool
  usesApiKey : Bool

def buildStep (env : PyEnv) (base_url : Option String) (st : BuildState) (r : Request) :
    BuildState :=
  let o := buildRequestOp env base_url r
  { paths := pathsInsert o.path o.method o.op st.paths,
    usesBearer := st.usesBearer || o.bearerFlag,
    usesApiKey := st.usesApiKey || o.apiKeyFlag }

/-- The deterministic description annotator (the `ai_enabled` pass):
compose one sentence from the verb, the path, the query-parameter names
and the first 12 body keys, truncated to 800 characters.  (The Python
code also collects the header-parameter names but never uses them in the
sentence.) -/
def annotateOp (p m : String) (op : Operation) : Operation :=
  let query_names := (op.parameters.filter (fun pr => pr.location == "query")).map (fun pr => pr.name)
  let body_keys :=
    match op.requestBody with
    | some rb =>
      match rb.exampleVal with
      | Json.obj kvs => (kvs.map Prod.fst).take 12
      | _ => []
    | none => []
  let verb := if pyUpper m = "GET" then "Retrieves" else "Processes"
  let parts :=
    [verb ++ " data for `" ++ p ++ "`"] ++
    (if query_names ≠ [] then ["with query filters " ++ pyStrList query_names] else []) ++
    (if body_keys ≠ [] then ["using body fields " ++ pyStrList body_keys] else [])
  let sentence := pyJoin " " parts ++ "."
  { op with description := some (pyTake sentence 800) }

/-- `build_openapi_from_requests`. -/
def build_openapi_from_requests (env : PyEnv) (project_name : String)
    (base_url_hint : Option String) (requests_payload : List Request)
    (ai_enabled : Bool) : OpenApiDoc :=
  let base_url := infer_base_url requests_payload base_url_hint
  let st := requests_payload.foldl (buildStep env base_url)
    { paths := [], usesBearer := false, usesApiKey := false }
  let securitySchemes :=
    (if st.usesBearer then [("bearerAuth", bearerAuthScheme)] else []) ++
    (if st.usesApiKey then [("apiKeyAuth", apiKeyAuthScheme)] else [])
  let security :=
    (if st.usesBearer then ["bearerAuth"] else []) ++
    (if st.usesApiKey then ["apiKeyAuth"] else [])
  let paths :=
    if ai_enabled then
      st.paths.map (fun pe => (pe.1, pe.2.map (fun me => (me.1, annotateOp pe.1 me.1 me.2))))
    else st.paths
  { openapiVersion := "3.0.3",
    infoTitle := project_name ++ " API",
    infoVersion := "0.1.0",
    servers := match base_url with | some b => [b] | none => [],
    paths := paths,
    securitySchemes := securitySchemes,
    security := security }

/-- Lookup of one operation in a document (dict indexing on `paths`). -/
def getOp (doc : OpenApiDoc) (path method : String) : Option Operation :=
  (doc.paths.lookup path).bind (fun ops => ops.lookup method)

/-! ## Renderer helpers: type/description heuristics and flattening -/

/-- The local `_infer_type` helper (textually identical in the sheet and
vendor renderers). -/
def inferFieldType : Json → String
  | Json.null => "String"
  | Json.bool _ => "Boolean"
  | Json.num _ => "Number"
  | Json.str _ => "String"
  | Json.arr [] => "Array<Any>"
  | Json.arr (x :: _) => "Array<" ++ inferFieldType x ++ ">"
  | Json.obj _ => "Object"

/-- Python `prefix.split('.')[-1]`. -/
def lastDotSeg (p : String) : String := ((pySplitChar '.' p).getLast?).getD ""

/-- The sheet renderer's domain-specific description table. -/
def sheetDomainMap : List (String × String) :=
  [("company_id", "Company identifier."),
   ("user_id", "User identifier initiating the request."),
   ("module_id", "Module identifier."),
   ("user_role_id", "Role identifier for authorization decisions."),
   ("module_name", "Human-readable module name."),
   ("page_no", "Page number for pagination (1-based)."),
   ("record_per_page", "Number of records per page."),
   ("force_active_status", "If \x271\x27, restrict results to active entities."),
   ("employee_ids", "List of employee identifiers to filter results."),
   ("url", "Client page/route where the request originated."),
   ("device_info", "Information about client device and environment."),
   ("device_type", "Type of device (Desktop/Mobile/Tablet)."),
   ("is_mobile", "Flag indicating mobile device (0/1)."),
   ("is_tablet", "Flag indicating tablet device (0/1)."),
   ("is_desktop", "Flag indicating desktop device (0/1)."),
   ("browser", "Client browser name."),
   ("os", "Operating system name."),
   ("os_version", "Operating system version."),
   ("user_agent", "Raw user-agent string."),
   ("ip_address", "Client IP address."),
   ("is_vendor", "Flag indicating vendor context (0/1).")]

/-- The sheet renderer's `_infer_desc`. -/
def sheetInferDesc (key : String) (value : Json) : String :=
  let k := pyLower key
  match sheetDomainMap.lookup k with
  | some d => d
  | none =>
    if pyContains k "email" then "User email address."
    else if pyEndswith k "_id" ∨ k = "id" then "Unique identifier."
    else if pyContains k "phone" ∨ pyContains k "mobile" then "Phone number."
    else if pyContains k "name" then "Descriptive name."
    else if pyContains k "password" ∨ pyContains k "passcode" then "Secret credential; do not log."
    else if pyContains k "gst" ∨ pyContains k "gstin" then "GST identification number."
    else if pyContains k "pan" then "PAN number."
    else if pyContains k "account" ∧ pyContains k "number" then "Bank account number (mask for security)."
    else if pyContains k "currency" then "Currency code (e.g., INR, USD)."
    else match value with
      | Json.arr _ => "List of values."
      | Json.obj _ => "Nested object."
      | _ => "Field \x27" ++ key ++ "\x27."

/-- The vendor renderer's (larger, domain-aware) description table. -/
def vendorDomainMap : List (String × String) :=
  [("company_id", "ID of the company."),
   ("user_id", "User ID making the request."),
   ("user_role_id", "Role ID of the logged-in user."),
   ("page_no", "Page number for pagination."),
   ("record_per_page", "Number of records per page."),
   ("force_active_status", "Filter for active status (1 = active only)."),
   ("employee_ids", "List of employee IDs to filter."),
   ("url", "Module/section reference URL."),
   ("is_vendor", "0 = employee, 1 = vendor."),
   ("module_name", "Name of the module accessing API."),
   ("module_id", "ID of the module."),
   ("pr_no", "Purchase Request numbers filter."),
   ("po_no", "Purchase Order numbers filter."),
   ("irn_no", "IRN numbers filter."),
   ("vendor_id", "Vendor identifiers filter."),
   ("vendor_invoice_no", "Vendor invoice number filter."),
   ("vendor_invoice_date", "Vendor invoice date filter (YYYY-MM-DD)."),
   ("invoice_approved_by", "Approver user IDs filter."),
   ("invoice_approved_date", "Invoice approval date filter."),
   ("gross_invoice_amount", "Gross invoice amount filter."),
   ("tds_amount", "TDS amount filter."),
   ("advance_deducted", "Advance deducted amount filter."),
   ("net_payable_amount", "Net payable amount filter."),
   ("payment_requested_by", "Payment requesting user IDs filter."),
   ("payment_entry_no", "Payment entry number filter."),
   ("payment_entry_date", "Payment entry date filter."),
   ("payment_amount", "Payment amount filter."),
   ("remaining_payment_amount", "Remaining payment amount filter."),
   ("payment_mode", "Payment mode (e.g., NEFT/RTGS/Cheque)."),
   ("instrument_no", "Instrument/cheque number."),
   ("company_bank", "Company bank name."),
   ("utr_no", "Bank UTR number."),
   ("from_amount_clearing_date", "Start date for amount clearing range."),
   ("to_amount_clearing_date", "End date for amount clearing range."),
   ("payment_approval_status", "Payment approval status filter."),
   ("payment_status", "Payment status filter."),
   ("grn_approval_no", "GRN approval number."),
   ("column_list", "Columns to include in the report output."),
   ("from_payment_date", "Start payment date range."),
   ("to_payment_date", "End payment date range."),
   ("search_query", "Free-text search query."),
   ("is_excel_download", "If \x271\x27, export as Excel instead of JSON."),
   ("invoice_payment_remarks", "Remarks filter for invoice payments."),
   ("request_server_time", "Client-side request time (for logging)."),
   ("device_info", "Device/browser metadata."),
   ("device_type", "Type of device (Desktop, Mobile, etc.)."),
   ("is_mobile", "1 = mobile, 0 = not mobile."),
   ("is_tablet", "1 = tablet, 0 = not tablet."),
   ("is_desktop", "1 = desktop, 0 = not desktop."),
   ("browser", "Browser name (e.g., Chrome)."),
   ("os", "Operating system (e.g., Windows/Mac)."),
   ("os_version", "OS version (e.g., windows-10)."),
   ("user_agent", "Full user agent string."),
   ("ip_address", "Client IP address (if available).")]

/-- The vendor renderer's `_infer_desc`. -/
def vendorInferDesc (key : String) (value : Json) : String :=
  let k := pyLower key
  match vendorDomainMap.lookup k with
  | some d => d
  | none =>
    if pyContains k "email" then "Email address."
    else if pyEndswith k "_id" ∨ k = "id" then "Unique identifier."
    else if pyContains k "phone" ∨ pyContains k "mobile" then "Phone number."
    else if pyContains k "name" then "Descriptive name."
    else if pyContains k "password" then "Secret credential; never log."
    else if pyContains k "gst" then "GST identification number."
    else if pyContains k "pan" then "PAN number."
    else if pyContains k "account" ∧ pyContains k "number" then "Bank account number (mask in logs)."
    else if pyContains k "currency" then "Currency code (e.g., INR, USD)."
    else match value with
      | Json.arr _ => "List of values."
      | Json.obj _ => "Nested object."
      | _ => ""

/-- One row of the flattened field table. -/
structure FieldRow where
  name : String
  typeStr : String
  description : String
deriving DecidableEq

/-- The local `_flatten` of both table-producing renderers: recurse into
mappings with dot-joined key paths, emit a row per list (recursing into
the first element when it is itself structured) and per scalar leaf. -/
def flattenFields (inferDesc : String → Json → String) (pref : String) : Json → List FieldRow
  | Json.obj kvs =>
    kvs.attach.flatMap (fun x =>
      flattenFields inferDesc (if pref = "" then x.1.1 else pref ++ "." ++ x.1.1) x.1.2)
  | Json.arr l =>
    { name := pref, typeStr := inferFieldType (Json.arr l),
      description := inferDesc (lastDotSeg pref) (Json.arr l) } ::
    (match l.attach with
     | x :: _ =>
       match x.1, x.2 with
       | Json.obj kv, _hmem => flattenFields inferDesc (pref ++ "[]") (Json.obj kv)
       | Json.arr el, _hmem => flattenFields inferDesc (pref ++ "[]") (Json.arr el)
       | _, _ => []
     | [] => [])
  | j => [{ name := pref, typeStr := inferFieldType j,
            description := inferDesc (lastDotSeg pref) j }]
termination_by j => sizeOf j
decreasing_by
  · obtain ⟨⟨k, v⟩, hx⟩ := x
    have h := List.sizeOf_lt_of_mem hx
    simp only [Prod.mk.sizeOf_spec] at h
    simp only [Json.obj.sizeOf_spec]
    omega
  · have h := List.sizeOf_lt_of_mem _hmem
    simp only [Json.arr.sizeOf_spec] at h ⊢
    omega
  · have h := List.sizeOf_lt_of_mem _hmem
    simp only [Json.arr.sizeOf_spec] at h ⊢
    omega

/-! ## Markdown renderers -/

/-- `"\n".join(lines).strip() + "\n"`. -/
def joinedMarkdown (lines : List String) : String :=
  pyStrip (pyJoin "\n" lines) ++ "\n"

/-- A fenced block: `"""\n@@@LANG\n%s\n@@@\n""".strip() % body` (with the
triple-backtick fence). -/
def fencedBlock (lang body : String) : String :=
  "```" ++ lang ++ "\n" ++ body ++ "\n```"

/-- `json.dumps(example, indent=2) if not isinstance(example, str) else
example`. -/
def prettyExample (env : PyEnv) : Json → String
  | Json.str s => s
  | j => env.dumps_pretty j

/-! ### Default style -/

def defaultOpLines (env : PyEnv) (method : String) (op : Operation) : List String :=
  ["### " ++ pyUpper method] ++
  (if op.summary ≠ "" then [op.summary] else []) ++
  (if op.parameters ≠ [] then
    ["", "Parameters:"] ++
    op.parameters.map (fun p => "- " ++ p.location ++ " `" ++ p.name ++ "`")
   else []) ++
  (match op.requestBody with
   | some rb => ["", "Request Body:", fencedBlock "json" (prettyExample env rb.exampleVal)]
   | none => [])

/-- The default (plain) renderer of `render_markdown_from_openapi`. -/
def renderDefaultStyle (env : PyEnv) (doc : OpenApiDoc) : String :=
  joinedMarkdown (
    ["# " ++ doc.infoTitle, ""] ++
    (if doc.servers ≠ [] then
      ["Servers:"] ++ doc.servers.map (fun s => "- " ++ s) ++ [""]
     else []) ++
    doc.paths.flatMap (fun pe =>
      ("## " ++ pe.1) ::
      (pe.2.flatMap (fun me => defaultOpLines env me.1 me.2) ++ [""])))

/-! ### Sheet style -/

def sheetFieldRows (fields : List FieldRow) : List String :=
  ["\n### Request Body Fields", "| Field | Type | Description |\n|---|---|---|"] ++
  fields.map (fun f => "| `" ++ f.name ++ "` | " ++ f.typeStr ++ " | " ++ f.description ++ " |")

def sheetOpLines (env : PyEnv) (base_url : Option String) (path method : String)
    (op : Operation) : List String :=
  ("## " ++ pyOrStr (some op.summary) (pyUpper method ++ " " ++ path)) ::
  "" ::
  ("- Method: **" ++ pyUpper method ++ "**") ::
  ("- URL: `" ++ path ++ "`") ::
  ((if op.tags ≠ [] then ["- Tags: " ++ pyJoin ", " op.tags] else []) ++
   (if op.parameters ≠ [] then
     (let headers := op.parameters.filter (fun p => p.location == "header")
      let query := op.parameters.filter (fun p => p.location == "query")
      let path_params := op.parameters.filter (fun p => p.location == "path")
      (if headers ≠ [] then
        ["\n### Headers", "| Name | Example |\n|---|---|"] ++
        headers.map (fun h => "| " ++ h.name ++ " | " ++ pyOrStr h.exampleVal "" ++ " |")
       else []) ++
      (if path_params ≠ [] then
        ["\n### Path Params", "| Name | Required |\n|---|---|"] ++
        path_params.map (fun p =>
          "| " ++ p.name ++ " | " ++ (if p.required.getD false then "yes" else "no") ++ " |")
       else []) ++
      (if query ≠ [] then
        ["\n### Query Params", "| Name |\n|---|"] ++
        query.map (fun q => "| " ++ q.name ++ " |")
       else []))
    else []) ++
   (match op.requestBody with
    | some rb =>
      let ex := match rb.exampleVal with
                | Json.str s => coerce_json env s
                | j => j
      ["\n### Request Body", fencedBlock "json" (prettyExample env ex)] ++
      (match ex with
       | Json.obj _ =>
         let fields := flattenFields sheetInferDesc "" ex
         if fields ≠ [] then sheetFieldRows fields else []
       | Json.arr _ =>
         let fields := flattenFields sheetInferDesc "" ex
         if fields ≠ [] then sheetFieldRows fields else []
       | _ => [])
    | none => []) ++
   ["\n### Example cURL",
    fencedBlock "bash" ("curl -X " ++ pyUpper method ++ " \"" ++ pyOrStr base_url "" ++ path ++ "\"")] ++
   (if op.responses ≠ [] then
     ["\n### Responses", "| Status | Description |\n|---|---|"] ++
     op.responses.map (fun cr => "| " ++ cr.1 ++ " | " ++ cr.2.description ++ " |")
    else []) ++
   [""])

/-- `_render_sheet_style`. -/
def renderSheetStyle (env : PyEnv) (doc : OpenApiDoc) : String :=
  let base_url := doc.servers.head?
  joinedMarkdown (
    ["# " ++ doc.infoTitle, ""] ++
    (match base_url with
     | some b => ["**Base URL**: `" ++ b ++ "`"]
     | none => []) ++
    (if doc.security ≠ [] then
      ["", "**Authentication**:"] ++
      (if doc.security.contains "bearerAuth" then
        ["- Bearer token (JWT) via `Authorization: Bearer <token>` header"] else []) ++
      (if doc.security.contains "apiKeyAuth" then
        ["- API Key via `X-API-Key: <key>` header"] else [])
     else []) ++
    ["", "> This document is generated automatically from provided cURL requests.", ""] ++
    doc.paths.flatMap (fun pe =>
      pe.2.flatMap (fun me => sheetOpLines env base_url pe.1 me.1 me.2)))

/-! ### Vendor style -/

/-- `re.sub(r"\s+API$", "", title)`: drop one trailing run of whitespace
followed by `API`. -/
def stripTrailingApi (t : String) : String :=
  if pyEndswith t "API" then
    let pre : String := ⟨t.data.take (t.data.length - 3)⟩
    let pre2 : String := ⟨(pre.data.reverse.dropWhile Char.isWhitespace).reverse⟩
    if pre2.length < pre.length then pre2 else t
  else t

def vendorRequiredKeys : List String := ["company_id", "user_id", "user_role_id"]

def vendorFieldRows (fields : List FieldRow) : List String :=
  ["\n### Request Body Fields",
   "| Field | Type | Required | Description |\n|---|---|---|---|"] ++
  fields.map (fun f =>
    "| `" ++ f.name ++ "` | " ++ f.typeStr ++ " | " ++
    (if vendorRequiredKeys.contains (lastDotSeg f.name) then "Yes" else "No") ++
    " | " ++ f.description ++ " |")

/-- The nested `device_info` sub-table, emitted when the flattened field
table is non-empty and the example is a mapping with a mapping-valued
`device_info` key. -/
def vendorDeviceInfoRows (ex : Json) : List String :=
  match ex with
  | Json.obj kvs =>
    match kvs.lookup "device_info" with
    | some (Json.obj dev) =>
      ["\n#### device_info object", "| Field | Type | Description |\n|---|---|---|"] ++
      dev.map (fun kv =>
        "| `" ++ kv.1 ++ "` | " ++ inferFieldType kv.2 ++ " | " ++ vendorInferDesc kv.1 kv.2 ++ " |")
    | _ => []
  | _ => []

def vendorBodyLines (env : PyEnv) (rb : RequestBody) : List String :=
  let ex := match rb.exampleVal with
            | Json.str s => coerce_json env s
            | j => j
  ["\n### Request Body", fencedBlock "json" (prettyExample env ex)] ++
  (match ex with
   | Json.obj _ =>
     let fields := flattenFields vendorInferDesc "" ex
     if fields ≠ [] then vendorFieldRows fields ++ vendorDeviceInfoRows ex else []
   | Json.arr _ =>
     let fields := flattenFields vendorInferDesc "" ex
     if fields ≠ [] then vendorFieldRows fields ++ vendorDeviceInfoRows ex else []
   | _ => [])

/-- The per-operation section of `_render_vendor_style`.  The first line
is the section heading, with the `ajax_getempcostcenter` literal
override. -/
def vendorOpLines (env : PyEnv) (path method : String) (op : Operation) : List String :=
  (if pyContains path "ajax_getempcostcenter" then "## Get Employee Cost Center"
   else "## " ++ pyOrStr (some op.summary) (pyUpper method ++ " " ++ path)) ::
  "" ::
  "### Endpoint" ::
  ("`" ++ pyUpper method ++ " " ++ path ++ "`") ::
  ((if op.tags ≠ [] then ["- Tags: " ++ pyJoin ", " op.tags] else []) ++
   ["", "### Description",
    (let d := pyStrip (op.description.getD "")
     if d ≠ "" then d else "(description not provided)")] ++
   (let path_params := op.parameters.filter (fun p => p.location == "path")
    let query_params := op.parameters.filter (fun p => p.location == "query")
    let headers := op.parameters.filter (fun p => p.location == "header")
    (if path_params ≠ [] then
      ["\n### Path Parameters", "| Name | Required | Description |\n|---|---|---|"] ++
      path_params.map (fun p =>
        "| `" ++ p.name ++ "` | " ++ (if p.required.getD false then "Yes" else "No") ++ " | |")
     else []) ++
    (if query_params ≠ [] then
      ["\n### Query Parameters", "| Name | Type | Required | Description |\n|---|---|---|---|"] ++
      query_params.map (fun p => "| `" ++ p.name ++ "` | " ++ p.schemaType ++ " | No | |")
     else []) ++
    (if headers ≠ [] then
      ["\n### Headers", "| Header | Type | Required |\n|---|---|---|"] ++
      headers.map (fun h =>
        "| " ++ h.name ++ " | String | " ++ (if h.required.getD false then "Yes" else "No") ++ " |")
     else [])) ++
   (match op.requestBody with
    | some rb => vendorBodyLines env rb
    | none => []) ++
   (if op.responses ≠ [] then
     ["\n### Responses", "| Status | Description |\n|---|---|"] ++
     op.responses.map (fun cr => "| " ++ cr.1 ++ " | " ++ cr.2.description ++ " |")
    else []) ++
   [""])

def vendorSupportLines : List String :=
  ["## Support & SLA",
   "- Response time targets: 99.9% uptime, <300ms P50 for core endpoints",
   "- Contact: support@example.com",
   "- Changelog: maintained by provider",
   ""]

/-- The complete line list of `_render_vendor_style`, before joining. -/
def vendorAllLines (env : PyEnv) (doc : OpenApiDoc) : List String :=
  let base_url := doc.servers.head?
  ["# API Documentation: " ++ stripTrailingApi doc.infoTitle, "",
   "Version: `" ++ doc.infoVersion ++ "`"] ++
  (match base_url with
   | some b => ["Base URL: `" ++ b ++ "`"]
   | none => []) ++
  [""] ++
  (if doc.security ≠ [] then
    ["## Authentication"] ++
    (if doc.security.contains "bearerAuth" then
      ["- Bearer token via `Authorization: Bearer <token>` header"] else []) ++
    (if doc.security.contains "apiKeyAuth" then
      ["- API Key via `X-API-Key: <key>` header"] else []) ++
    [""]
   else []) ++
  ["## Conventions",
   "- Content-Type: application/json",
   "- Date/time in ISO 8601, UTC",
   "- Idempotency: GET safe; POST/PUT/PATCH/DELETE may change state",
   ""] ++
  doc.paths.flatMap (fun pe =>
    pe.2.flatMap (fun me => vendorOpLines env pe.1 me.1 me.2)) ++
  vendorSupportLines

/-- `_render_vendor_style`. -/
def renderVendorStyle (env : PyEnv) (doc : OpenApiDoc) : String :=
  joinedMarkdown (vendorAllLines env doc)

/-- `render_markdown_from_openapi`: dispatch on the style string. -/
def render_markdown_from_openapi (env : PyEnv) (openapi : OpenApiDoc) (style : String) : String :=
  if style = "sheet" then renderSheetStyle env openapi
  else if style = "vendor" then renderVendorStyle env openapi
  else renderDefaultStyle env openapi

/-! ## Claim-support definitions -/

/-- A small concrete standard-library instance used to evaluate the
definitions on closed inputs: it parses exactly the text `"null"` (to the
JSON null) and serializes every value to `"null"`; unicode-escape decoding
is the identity (correct for strings without backslashes). -/
def stubEnv : PyEnv :=
  { loads := fun s => if s = "null" then some Json.null else none,
    literal_eval := fun _ => none,
    dumps := fun _ => "null",
    dumps_pretty := fun _ => "null",
    unicode_unescape := fun s => some s }

/-- The reading of `parse_curl` asserted by the specification: exactly one
leading `"curl "` prefix occurrence is stripped from the trimmed command
and the remainder is tokenized unchanged.  Stated from the spec's words,
to be compared with `parse_curl` (which uses the `lstrip` character-set
semantics). -/
def parseCurlOnePrefixSpec (env : PyEnv) (curl_cmd : String) : Request :=
  let t := pyStrip curl_cmd
  let stripped := if pyStartswith t "curl " then t.drop 5 else t
  parseCurlFromTokens env (shell_split stripped)

/-- The seven response entries every synthesized operation ends up with:
the 200 plus the six standard error codes, in merge order. -/
def stdResponses : List (String × ResponseObj) :=
  [("200", ok200),
   ("400", { description := "Bad Request", hasJsonObjectContent := false }),
   ("401", { description := "Unauthorized", hasJsonObjectContent := false }),
   ("403", { description := "Forbidden", hasJsonObjectContent := false }),
   ("404", { description := "Not Found", hasJsonObjectContent := false }),
   ("429", { description := "Too Many Requests", hasJsonObjectContent := false }),
   ("500", { description := "Internal Server Error", hasJsonObjectContent := false })]

/-- Decidable check of the C6 invariant over a document: every method key
under every path is a fixed point of lower-casing, and every operation's
responses map is exactly the standard seven-entry map (in particular it
contains `"200"` and the six error codes, none overwritten). -/
def methodsAndResponsesOk (doc : OpenApiDoc) : Bool :=
  doc.paths.all (fun pe =>
    pe.2.all (fun me =>
      (pyLower me.1 == me.1) && decide (me.2.responses = stdResponses)))

/-- All operations of a paths map satisfy `P` (keyed by their method). -/
def AllOps (P : String → Operation → Prop)
    (paths : List (String × List (String × Operation))) : Prop :=
  ∀ pe ∈ paths, ∀ me ∈ pe.2, P me.1 me.2

/-- Header lists that agree except possibly on the values of sensitive
keys (`authorization`, `x-api-key`, `api-key`, case-insensitively):
same length, same keys in the same order, and equal values wherever the
key is not sensitive. -/
def headersEquivB : List (String × String) → List (String × String) → Bool
  | [], [] => true
  | (k1, v1) :: t1, (k2, v2) :: t2 =>
    decide (k1 = k2) && (sensitiveKey k1 || decide (v1 = v2)) && headersEquivB t1 t2
  | _, _ => false

/-- Requests that agree except possibly on sensitive header values. -/
def requestEquivB (r1 r2 : Request) : Bool :=
  decide (r1.method = r2.method) && decide (r1.url = r2.url) &&
  decide (r1.body = r2.body) && headersEquivB r1.headers r2.headers

/-- Batches that agree except possibly on sensitive header values. -/
def batchEquivB : List Request → List Request → Bool
  | [], [] => true
  | r1 :: t1, r2 :: t2 => requestEquivB r1 r2 && batchEquivB t1 t2
  | _, _ => false

/-- C1's failing input: one request carrying a bearer Authorization
header. -/
def bearerReq : Request :=
  { method := "GET", url := "https://e.com/a",
    headers := [("Authorization", "Bearer abc")], body := none }

/-- C2's counterexample input: two id-like path segments with the same
text. -/
def twoIdReq : Request :=
  { method := "GET", url := "/users/12/orders/12", headers := [], body := none }

/-- A concrete operation and document exercising the vendor renderer's
`ajax_getempcostcenter` override (the summary deliberately disagrees with
the fixed heading). -/
def costCenterOp : Operation :=
  { summary := "GET /x/ajax_getempcostcenter", operationId := "get_x_ajax_getempcostcenter",
    tags := ["x"], parameters := [], responses := stdResponses,
    requestBody := none, description := none }

def costCenterDoc : OpenApiDoc :=
  { openapiVersion := "3.0.3", infoTitle := "T API", infoVersion := "0.1.0",
    servers := [], paths := [("/x/ajax_getempcostcenter", [("get", costCenterOp)])],
    securitySchemes := [], security := [] }

/-! # Theorems -/

/-! ## Generic lemmas -/

theorem charToLower_ofUpper (n : Nat) (h1 : 65 ≤ n) (h2 : n ≤ 90) :
    Char.toLower (Char.ofNat (n + 32)) = Char.ofNat (n + 32) := by
  interval_cases n <;> decide

theorem charToLower_idem (c : Char) : c.toLower.toLower = c.toLower := by
  by_cases h : c.toNat ≥ 65 ∧ c.toNat ≤ 90
  · have hc : c.toLower = Char.ofNat (c.toNat + 32) := by
      unfold Char.toLower
      simp [h]
    rw [hc]
    exact charToLower_ofUpper c.toNat h.1 h.2
  · have hc : c.toLower = c := by
      unfold Char.toLower
      simp [h]
    rw [hc, hc]

theorem mapToLower_idem (l : List Char) :
    (l.map Char.toLower).map Char.toLower = l.map Char.toLower := by
  induction l with
  | nil => rfl
  | cons c t ih => simp only [List.map_cons, charToLower_idem c, ih]

theorem pyLower_idem (s : String) : pyLower (pyLower s) = pyLower s := by
  unfold pyLower
  exact congrArg String.mk (mapToLower_idem s.data)

/-! ## C8: deterministic rendering -/

/-- C8: for every OpenAPI document and every style, rendering the same
document twice with the same style yields byte-identical Markdown.  In
the embedding the renderer is a pure function of the document and the
style (the translation introduces no state, mirroring the fact that the
Python renderers only read the document and never assign into it), so the
two calls are literally the same value. -/
theorem render_markdown_deterministic (env : PyEnv) (doc : OpenApiDoc) (style : String) :
    render_markdown_from_openapi env doc style = render_markdown_from_openapi env doc style :=
  rfl

/-! ## C5: JSON coercion round-trip -/

/-- C5: coercing the strict JSON serialization of a value yields the value
back.  The hypothesis is exactly the `json` module's round-trip contract
(`json.loads(json.dumps(x)) == x`, with `json.dumps` emitting no
surrounding whitespace), under which `_coerce_json` succeeds on its fast
path. -/
theorem coerce_json_roundtrip (env : PyEnv) (x : Json)
    (h : env.loads (pyStrip (env.dumps x)) = some x) :
    coerce_json env (env.dumps x) = x := by
  simp only [coerce_json, h]

theorem coerce_json_roundtrip_witness :
    stubEnv.loads (pyStrip (stubEnv.dumps Json.null)) = some Json.null ∧
    coerce_json stubEnv (stubEnv.dumps Json.null) = Json.null :=
  ⟨rfl, coerce_json_roundtrip stubEnv Json.null rfl⟩

/-! ## C1: bearer Authorization handling (code bug) -/

/-- C1: the claim (and the spec) say a `Bearer`-valued `Authorization`
header sets `uses_bearer`, adds the `bearerAuth` security scheme and is
omitted from the literal header parameters.  The code masks the header
value to `"***"` *before* the bearer check, so the check
`hv.lower().startswith("bearer")` can never succeed: on the failing input
the document has no security scheme and no top-level security, and
`Authorization` IS emitted as a literal header parameter (with the masked
example).  The `uses_bearer` branch of the synthesizer is dead code. -/
theorem bearer_header_never_detected :
    (build_openapi_from_requests stubEnv "Proj" none [bearerReq] true).securitySchemes = [] ∧
    (build_openapi_from_requests stubEnv "Proj" none [bearerReq] true).security = [] ∧
    (getOp (build_openapi_from_requests stubEnv "Proj" none [bearerReq] true) "/a" "get").map
      (fun op => op.parameters) =
      some [{ location := "header", name := "Authorization", required := none,
              schemaType := "string", exampleVal := some "***" }] :=
  ⟨rfl, rfl, rfl⟩

/-! ## C2: path templating (counterexample) -/

/-- C2 counterexample: on `/users/12/orders/12` the claim predicts the
template `/users/{id}/orders/12` (later matching segments stay literal).
The code instead calls `path.replace("/12", "/{id}")`, which replaces
every occurrence: the stored key is `/users/{id}/orders/{id}` (still with
exactly one path parameter). -/
theorem path_templating_first_only_cex :
    ((build_openapi_from_requests stubEnv "P" none [twoIdReq] true).paths.lookup
        "/users/{id}/orders/12") = none ∧
    ((build_openapi_from_requests stubEnv "P" none [twoIdReq] true).paths.lookup
        "/users/{id}/orders/{id}").isSome = true ∧
    (getOp (build_openapi_from_requests stubEnv "P" none [twoIdReq] true)
        "/users/{id}/orders/{id}" "get").map
      (fun op => op.parameters.filter (fun p => p.location == "path")) =
      some [idPathParam] :=
  ⟨rfl, rfl, rfl⟩

/-! ## C3: curl-prefix stripping (corrected) -/

theorem dropWhile_append_of_all {α : Type} (p : α → Bool) (l1 l2 : List α)
    (h : l1.all p) : (l1 ++ l2).dropWhile p = l2.dropWhile p := by
  induction l1 with
  | nil => rfl
  | cons a t ih =>
    simp only [List.all_cons, Bool.and_eq_true] at h
    simp only [List.cons_append, List.dropWhile_cons, h.1, if_true]
    exact ih h.2

theorem lstrip_curl_append (rest : String) :
    pyLstripChars "curl " ("curl " ++ rest) = pyLstripChars "curl " rest := by
  unfold pyLstripChars
  have hd : ("curl " ++ rest).data = "curl ".data ++ rest.data := rfl
  rw [hd, dropWhile_append_of_all _ _ _ (by decide)]

/-- C3 counterexample: on the command `curl url/a`, stripping exactly one
`"curl "` prefix occurrence and tokenizing the remainder unchanged (the
claim's reading, `parseCurlOnePrefixSpec`) yields URL `/` — but
`parse_curl` uses `lstrip("curl ")`, a character-set strip that also eats
the following `url` run, leaving the token `/a`, which becomes the URL. -/
theorem curl_prefix_strip_cex :
    (parse_curl stubEnv "curl url/a").url = "/a" ∧
    (parseCurlOnePrefixSpec stubEnv "curl url/a").url = "/" ∧
    parse_curl stubEnv "curl url/a" ≠ parseCurlOnePrefixSpec stubEnv "curl url/a" :=
  ⟨rfl, rfl, by decide⟩

/-- C3 amended: `parse_curl` strips every leading character drawn from the
set `{c, u, r, l, space}` (Python `lstrip` character-set semantics), not
exactly one `"curl "` prefix occurrence: after the `"curl "` prefix, any
immediately following run of those characters is stripped too, and only
then is the remainder tokenized unchanged. -/
theorem curl_prefix_strip_amended (env : PyEnv) (cmd rest : String)
    (h : pyStrip cmd = "curl " ++ rest) :
    parse_curl env cmd = parseCurlFromTokens env (shell_split (pyLstripChars "curl " rest)) := by
  unfold parse_curl curlTokens
  rw [h, lstrip_curl_append]

theorem curl_prefix_strip_amended_witness :
    pyStrip "curl url/a" = "curl " ++ "url/a" ∧
    parse_curl stubEnv "curl url/a" =
      parseCurlFromTokens stubEnv (shell_split (pyLstripChars "curl " "url/a")) :=
  ⟨rfl, curl_prefix_strip_amended stubEnv "curl url/a" "url/a" rfl⟩

/-! ## C4: the JSON fallback request -/

/-- C4: over the normalized chunk list, (i) when no chunk starts with
`"curl "`, the chunks are non-empty, and their newline-joined
concatenation parses as JSON, `parse_curl_inputs` returns exactly the one
fallback request `POST /` with the JSON content type and the re-serialized
body; (ii) as soon as one chunk is recognized as a curl command, the
result is exactly the parses of the curl chunks — the fallback never
fires. -/
theorem json_fallback_request (env : PyEnv) (curls : List String) :
    ((∀ c ∈ curls, pyStartswith c "curl " = false) → curls ≠ [] →
      ∀ j, env.loads (pyStrip (pyJoin "\n" curls)) = some j →
      parse_curl_inputs env curls =
        [{ method := "POST", url := "/",
           headers := [("Content-Type", "application/json")],
           body := some (env.dumps j) }]) ∧
    ((∃ c ∈ curls, pyStartswith c "curl " = true) →
      parse_curl_inputs env curls =
        (curls.filter (fun c => pyStartswith c "curl ")).map (parse_curl env)) := by
  constructor
  · intro hnone hne j hj
    have hfilter : curls.filter (fun c => pyStartswith c "curl ") = [] := by
      rw [List.filter_eq_nil_iff]
      intro c hc
      simp [hnone c hc]
    have hleft : curls.filter (fun c => ¬ pyStartswith c "curl ") = curls := by
      rw [List.filter_eq_self]
      intro c hc
      simp [hnone c hc]
    unfold parse_curl_inputs
    rw [hfilter, hleft]
    simp [hne, hj]
  · rintro ⟨c, hc, hstart⟩
    have hne2 : (curls.filter (fun c => pyStartswith c "curl ")).map (parse_curl env) ≠ [] := by
      simp only [ne_eq, List.map_eq_nil_iff, List.filter_eq_nil_iff, not_forall]
      exact ⟨c, hc, by simp [hstart]⟩
    unfold parse_curl_inputs
    simp [hne2]

theorem json_fallback_request_witness :
    parse_curl_inputs stubEnv ["null"] =
      [{ method := "POST", url := "/",
         headers := [("Content-Type", "application/json")],
         body := some (stubEnv.dumps Json.null) }] ∧
    parse_curl_inputs stubEnv ["curl /a"] =
      (["curl /a"].filter (fun c => pyStartswith c "curl ")).map (parse_curl stubEnv) :=
  ⟨(json_fallback_request stubEnv ["null"]).1 (by decide) (by decide) Json.null rfl,
   (json_fallback_request stubEnv ["curl /a"]).2 ⟨"curl /a", by decide, by decide⟩⟩

/-! ## C7: defensive parsing -/

theorem strMk_ne_empty (l : List Char) (h : l ≠ []) : (⟨l⟩ : String) ≠ "" := by
  intro he
  exact h (congrArg String.data he)

theorem shellSplitAux_tokens_ne_empty (s : List Char) :
    ∀ (q : Option Char) (buf : List Char), ∀ t ∈ shellSplitAux q buf s, t ≠ "" := by
  induction s with
  | nil =>
    intro q buf t ht
    match q with
    | some qc =>
      simp only [shellSplitAux] at ht
      split at ht
      · exact absurd ht (List.not_mem_nil t)
      · rename_i hbuf
        rw [List.mem_singleton] at ht
        subst ht
        exact strMk_ne_empty _ (by
          simp only [List.isEmpty_eq_true] at hbuf
          simp [hbuf])
    | none =>
      simp only [shellSplitAux] at ht
      split at ht
      · exact absurd ht (List.not_mem_nil t)
      · rename_i hbuf
        rw [List.mem_singleton] at ht
        subst ht
        exact strMk_ne_empty _ (by
          simp only [List.isEmpty_eq_true] at hbuf
          simp [hbuf])
  | cons c rest ih =>
    intro q buf t ht
    match q with
    | some qc =>
      simp only [shellSplitAux] at ht
      split at ht
      · exact ih none buf t ht
      · exact ih (some qc) (c :: buf) t ht
    | none =>
      simp only [shellSplitAux] at ht
      split at ht
      · exact ih (some c) buf t ht
      · split at ht
        · split at ht
          · exact ih none [] t ht
          · rename_i hbuf
            rcases List.mem_cons.mp ht with h1 | h2
            · subst h1
              exact strMk_ne_empty _ (by
                simp only [List.isEmpty_eq_true] at hbuf
                simp [hbuf])
            · exact ih none [] t h2
        · exact ih none (c :: buf) t ht

theorem findSome?_eq_none_of_all {α β : Type} (f : α → Option β) (l : List α)
    (h : ∀ a ∈ l, f a = none) : l.findSome? f = none := by
  induction l with
  | nil => rfl
  | cons a t ih =>
    rw [List.findSome?_cons]
    rw [h a (List.mem_cons_self a t)]
    exact ih (fun x hx => h x (List.mem_cons_of_mem a hx))

/-- C7: the parsing functions are total and degrade to the specified
defaults instead of raising: every token `_shell_split` emits is
non-empty (the splitter never fails, it just flushes buffers); with no
`-X` flag, `parse_curl` defaults the method to `GET`, or `POST` when a
data flag was present; with no URL-like token it defaults the URL to `/`;
and when the strict parse, every normalization candidate, and the
literal-eval fallback all fail, `_coerce_json` returns the original
string unchanged.  Totality itself is witnessed by the embedding: each
function is a total Lean function defined by structural recursion. -/
theorem parsing_defensive_defaults (env : PyEnv) (cmd v : String) :
    (∀ t ∈ shell_split cmd, t ≠ "") ∧
    (parse_method (curlTokens cmd) = none → parse_data env (curlTokens cmd) = none →
      (parse_curl env cmd).method = "GET") ∧
    (parse_method (curlTokens cmd) = none → parse_data env (curlTokens cmd) ≠ none →
      (parse_curl env cmd).method = "POST") ∧
    (parse_url (curlTokens cmd) = none → (parse_curl env cmd).url = "/") ∧
    (env.loads (pyStrip v) = none →
      (∀ c ∈ coerceCandidates (pyStrip v), env.loads c = none) →
      env.literal_eval (pyStrip v) = none →
      coerce_json env v = Json.str v) := by
  refine ⟨shellSplitAux_tokens_ne_empty _ none [], ?_, ?_, ?_, ?_⟩
  · intro hm hd
    simp [parse_curl, parseCurlFromTokens, hm, hd, pyOrStr]
  · intro hm hd
    simp only [ne_eq, Option.ne_none_iff_isSome] at hd
    simp [parse_curl, parseCurlFromTokens, hm, hd, pyOrStr]
  · intro hu
    simp [parse_curl, parseCurlFromTokens, hu, pyOrStr]
  · intro h1 h2 h3
    simp only [coerce_json, h1, findSome?_eq_none_of_all _ _ h2, h3]

theorem parsing_defensive_defaults_witness :
    (parse_curl stubEnv "plain text").method = "GET" ∧
    (parse_curl stubEnv "plain text").url = "/" ∧
    (parse_curl stubEnv "curl -d null").method = "POST" ∧
    coerce_json stubEnv "xyz" = Json.str "xyz" ∧
    ("plain" ∈ shell_split "plain text" → "plain" ≠ "") :=
  ⟨(parsing_defensive_defaults stubEnv "plain text" "xyz").2.1 rfl rfl,
   (parsing_defensive_defaults stubEnv "plain text" "xyz").2.2.2.1 rfl,
   (parsing_defensive_defaults stubEnv "curl -d null" "xyz").2.2.1 rfl (by decide),
   (parsing_defensive_defaults stubEnv "plain text" "xyz").2.2.2.2 rfl
     (by
       intro c hc
       have hcand : coerceCandidates (pyStrip "xyz") = ["xyz", "xyz", "xyz", "xyz"] := rfl
       rw [hcand] at hc
       simp only [List.mem_cons, List.not_mem_nil, or_false, or_self] at hc
       subst hc
       rfl) rfl,
   fun h => (parsing_defensive_defaults stubEnv "plain text" "xyz").1 "plain" h⟩

/-! ## C2 amended: path templating -/

theorem filter_path_queryParams (q : String) :
    (queryParamsOf q).filter (fun p => p.location == "path") = [] := by
  unfold queryParamsOf
  generalize pySplitChar '&' q = l
  induction l with
  | nil => rfl
  | cons a t ih =>
    rw [List.filterMap_cons]
    split
    · exact ih
    · rename_i pa heq
      split at heq
      · exact absurd heq (by simp)
      · rw [Option.some_inj] at heq
        subst heq
        rw [List.filter_cons]
        simp only [ih]
        simp

theorem filter_path_headerParams (hs : List (String × String)) :
    (headerParamsOf hs).filter (fun p => p.location == "path") = [] := by
  unfold headerParamsOf
  induction hs with
  | nil => rfl
  | cons a t ih =>
    rw [List.filterMap_cons]
    split
    · exact ih
    · rename_i pa heq
      split at heq
      · exact absurd heq (by simp)
      · split at heq
        · exact absurd heq (by simp)
        · rw [Option.some_inj] at heq
          subst heq
          rw [List.filter_cons]
          simp only [ih]
          simp

/-- C2 amended: for every request, the synthesis templates the path by
replacing EVERY occurrence of `"/" ++ s` — where `s` is the first
query-stripped path segment that is all-digits or a hex/dash string of
length ≥ 6 — with `/{id}` (so later segments equal to the first one are
templated too; only requests with no matching segment keep their path
literal), and it adds exactly one required path parameter named `id`
(none when no segment matches). -/
theorem path_templating_replaces_all (env : PyEnv) (b : Option String) (r : Request) :
    (match (pySplitChar '/' (preTemplatePath b r)).find? matchesIdSeg with
     | some seg =>
       (buildRequestOp env b r).path =
         pyReplace (preTemplatePath b r) ("/" ++ seg) "/{id}" ∧
       (buildRequestOp env b r).op.parameters.filter (fun p => p.location == "path") =
         [idPathParam]
     | none =>
       (buildRequestOp env b r).path = preTemplatePath b r ∧
       (buildRequestOp env b r).op.parameters.filter (fun p => p.location == "path") = []) := by
  have hqp : (match splitFirstChar '?' (path_from_url r.url b) with
      | some pq => queryParamsOf pq.2
      | none => ([] : List Param)).filter (fun (p : Param) => p.location == "path") = [] := by
    cases splitFirstChar '?' (path_from_url r.url b) with
    | some pq => exact filter_path_queryParams pq.2
    | none => rfl
  have hhp := filter_path_headerParams (mask_sensitive r.headers)
  have hid : (List.filter (fun p => p.location == "path") [idPathParam]) = [idPathParam] := rfl
  cases hf : (pySplitChar '/' (preTemplatePath b r)).find? matchesIdSeg with
  | some seg =>
    refine ⟨?_, ?_⟩
    · simp only [buildRequestOp, hf]
    · simp only [buildRequestOp, hf, List.filter_append, hqp, hhp, hid,
        List.nil_append, List.append_nil]
  | none =>
    refine ⟨?_, ?_⟩
    · simp only [buildRequestOp, hf]
    · simp only [buildRequestOp, hf, List.filter_append, hqp, hhp,
        List.filter_nil, List.nil_append, List.append_nil]

/-! ## C6: method-case and responses invariant -/

theorem methodSet_preserves (P : String → Operation → Prop) (method : String) (op : Operation)
    (ops : List (String × Operation))
    (hops : ∀ me ∈ ops, P me.1 me.2) (hop : P method op) :
    ∀ me ∈ pathsInsert.methodSet method op ops, P me.1 me.2 := by
  induction ops with
  | nil =>
    intro me hme
    rw [pathsInsert.methodSet, List.mem_singleton] at hme
    subst hme
    exact hop
  | cons hd tl ih =>
    intro me hme
    rw [pathsInsert.methodSet] at hme
    split at hme
    · rename_i heq
      rcases List.mem_cons.mp hme with h1 | h2
      · subst h1
        rw [heq]
        exact hop
      · exact hops _ (List.mem_cons_of_mem hd h2)
    · rcases List.mem_cons.mp hme with h1 | h2
      · subst h1
        exact hops _ (List.mem_cons_self hd tl)
      · exact ih (fun x hx => hops x (List.mem_cons_of_mem hd hx)) _ h2

theorem pathsInsert_preserves (P : String → Operation → Prop) (path method : String)
    (op : Operation) (paths : List (String × List (String × Operation)))
    (h : AllOps P paths) (hop : P method op) :
    AllOps P (pathsInsert path method op paths) := by
  induction paths with
  | nil =>
    intro pe hpe me hme
    rw [pathsInsert, List.mem_singleton] at hpe
    subst hpe
    rw [List.mem_singleton] at hme
    subst hme
    exact hop
  | cons hd tl ih =>
    intro pe hpe me hme
    rw [pathsInsert] at hpe
    split at hpe
    · rcases List.mem_cons.mp hpe with h1 | h2
      · subst h1
        exact methodSet_preserves P method op hd.2
          (fun x hx => h hd (List.mem_cons_self hd tl) x hx) hop me hme
      · exact h pe (List.mem_cons_of_mem hd h2) me hme
    · rcases List.mem_cons.mp hpe with h1 | h2
      · subst h1
        exact h hd (List.mem_cons_self hd tl) me hme
      · exact ih (fun x hx => h x (List.mem_cons_of_mem hd hx)) pe h2 me hme

theorem foldl_buildStep_preserves (env : PyEnv) (b : Option String)
    (P : String → Operation → Prop)
    (hP : ∀ r : Request, P (buildRequestOp env b r).method (buildRequestOp env b r).op) :
    ∀ (batch : List Request) (st : BuildState), AllOps P st.paths →
      AllOps P ((batch.foldl (buildStep env b) st).paths) := by
  intro batch
  induction batch with
  | nil => intro st h; exact h
  | cons r t ih =>
    intro st h
    rw [List.foldl_cons]
    exact ih _ (pathsInsert_preserves P _ _ _ st.paths h (hP r))

theorem buildRequestOp_method_lower (env : PyEnv) (b : Option String) (r : Request) :
    pyLower (buildRequestOp env b r).method = (buildRequestOp env b r).method := by
  have h : (buildRequestOp env b r).method = pyLower r.method := rfl
  rw [h]
  exact pyLower_idem r.method

theorem buildRequestOp_responses_std (env : PyEnv) (b : Option String) (r : Request) :
    (buildRequestOp env b r).op.responses = stdResponses := rfl

theorem annotateOp_responses (p m : String) (op : Operation) :
    (annotateOp p m op).responses = op.responses := rfl

/-- C6: in every document `build_openapi_from_requests` produces, every
method key under every path is lower-case (a fixed point of
lower-casing), and every operation's responses map is exactly `"200"`
(description `OK`, JSON object schema) followed by the six standard error
codes 400, 401, 403, 404, 429, 500 — merged without overwriting the
already-set 200 (or any other already-set code: the merge loop only adds
codes that are absent, and the initial map contains only `"200"`). -/
theorem openapi_method_responses_invariant (env : PyEnv) (project_name : String)
    (base_url_hint : Option String) (batch : List Request) (ai_enabled : Bool) :
    methodsAndResponsesOk
      (build_openapi_from_requests env project_name base_url_hint batch ai_enabled) = true := by
  set P : String → Operation → Prop :=
    fun m op => pyLower m = m ∧ op.responses = stdResponses with hPdef
  have hP : ∀ r : Request,
      P (buildRequestOp env (infer_base_url batch base_url_hint) r).method
        (buildRequestOp env (infer_base_url batch base_url_hint) r).op := by
    intro r
    exact ⟨buildRequestOp_method_lower _ _ r, buildRequestOp_responses_std _ _ r⟩
  have hfold : AllOps P
      ((batch.foldl (buildStep env (infer_base_url batch base_url_hint))
        { paths := [], usesBearer := false, usesApiKey := false }).paths) := by
    apply foldl_buildStep_preserves env _ P hP
    intro pe hpe
    exact absurd hpe (List.not_mem_nil pe)
  have hfinal : AllOps P
      (build_openapi_from_requests env project_name base_url_hint batch ai_enabled).paths := by
    show AllOps P (if ai_enabled then _ else _)
    cases ai_enabled with
    | false => exact hfold
    | true =>
      intro pe hpe me hme
      rw [if_pos rfl] at hpe
      rw [List.mem_map] at hpe
      obtain ⟨pe0, hpe0, hpe0eq⟩ := hpe
      subst hpe0eq
      rw [List.mem_map] at hme
      obtain ⟨me0, hme0, hme0eq⟩ := hme
      subst hme0eq
      have h0 := hfold pe0 hpe0 me0 hme0
      exact ⟨h0.1, by rw [annotateOp_responses]; exact h0.2⟩
  rw [methodsAndResponsesOk, List.all_eq_true]
  intro pe hpe
  rw [List.all_eq_true]
  intro me hme
  have h := hfinal pe hpe me hme
  rw [hPdef] at h
  simp [h.1, h.2]

/-! ## C9: the vendor cost-center heading override -/

/-- C9: in the vendor style, the section of any path containing the
substring `ajax_getempcostcenter` is titled with the fixed literal
`## Get Employee Cost Center` — its section's first line is that heading,
for EVERY operation (in particular irrespective of the computed summary),
and the heading line occurs in the full rendered line list. -/
theorem vendor_cost_center_heading (env : PyEnv) (doc : OpenApiDoc)
    (p : String) (ops : List (String × Operation)) (m : String) (op : Operation)
    (h1 : (p, ops) ∈ doc.paths) (h2 : (m, op) ∈ ops)
    (h3 : pyContains p "ajax_getempcostcenter" = true) :
    (vendorOpLines env p m op).head? = some "## Get Employee Cost Center" ∧
    "## Get Employee Cost Center" ∈ vendorAllLines env doc := by
  have hhead : (vendorOpLines env p m op).head? = some "## Get Employee Cost Center" := by
    rw [vendorOpLines, h3]
    rfl
  refine ⟨hhead, ?_⟩
  rw [vendorAllLines]
  have hmem : "## Get Employee Cost Center" ∈
      doc.paths.flatMap (fun pe => pe.2.flatMap (fun me => vendorOpLines env pe.1 me.1 me.2)) := by
    rw [List.mem_flatMap]
    refine ⟨(p, ops), h1, ?_⟩
    rw [List.mem_flatMap]
    refine ⟨(m, op), h2, ?_⟩
    have := hhead
    cases hl : vendorOpLines env p m op with
    | nil => rw [hl] at this; exact absurd this (by simp)
    | cons a t =>
      rw [hl] at this
      simp only [List.head?_cons, Option.some_inj] at this
      rw [this]
      exact List.mem_cons_self _ t
  simp only [List.mem_append]
  left
  right
  exact hmem

theorem vendor_cost_center_heading_witness :
    (vendorOpLines stubEnv "/x/ajax_getempcostcenter" "get" costCenterOp).head? =
      some "## Get Employee Cost Center" ∧
    "## Get Employee Cost Center" ∈ vendorAllLines stubEnv costCenterDoc :=
  vendor_cost_center_heading stubEnv costCenterDoc "/x/ajax_getempcostcenter"
    [("get", costCenterOp)] "get" costCenterOp
    (List.mem_cons_self _ _) (List.mem_cons_self _ _) rfl

/-! ## C10: masked headers cannot influence the document -/

theorem mask_sensitive_congr : ∀ (h1 h2 : List (String × String)),
    headersEquivB h1 h2 = true → mask_sensitive h1 = mask_sensitive h2
  | [], [], _ => rfl
  | [], (_, _) :: _, h => Bool.noConfusion h
  | (_, _) :: _, [], h => Bool.noConfusion h
  | (k1, v1) :: t1, (k2, v2) :: t2, h => by
    simp only [headersEquivB, Bool.and_eq_true, Bool.or_eq_true, decide_eq_true_eq] at h
    obtain ⟨⟨hk, hv⟩, ht⟩ := h
    subst hk
    have htail := mask_sensitive_congr t1 t2 ht
    simp only [mask_sensitive, List.map_cons] at htail ⊢
    cases hs : sensitiveKey k1 with
    | true => simp only [hs, if_true, htail]
    | false =>
      rcases hv with hv | hv
      · rw [hv] at hs
        cases hs
      · subst hv
        simp only [hs, htail]

theorem buildRequestOp_congr (env : PyEnv) (b : Option String) (r1 r2 : Request)
    (h : requestEquivB r1 r2 = true) :
    buildRequestOp env b r1 = buildRequestOp env b r2 := by
  obtain ⟨m1, u1, hs1, b1⟩ := r1
  obtain ⟨m2, u2, hs2, b2⟩ := r2
  simp only [requestEquivB, Bool.and_eq_true, decide_eq_true_eq] at h
  obtain ⟨⟨⟨hm, hu⟩, hb⟩, hh⟩ := h
  subst hm
  subst hu
  subst hb
  have hmask := mask_sensitive_congr hs1 hs2 hh
  have hpre : preTemplatePath b { method := m1, url := u1, headers := hs1, body := b1 } =
      preTemplatePath b { method := m1, url := u1, headers := hs2, body := b1 } := rfl
  simp only [buildRequestOp, hmask, hpre]

theorem urlScan_congr (hint : Option String) : ∀ (b1 b2 : List Request),
    batchEquivB b1 b2 = true →
    infer_base_url b1 hint = infer_base_url b2 hint := by
  have scan : ∀ (b1 b2 : List Request), batchEquivB b1 b2 = true →
      b1.findSome? (fun r => (matchSchemeHost r.url).map (pyRstripChars "/")) =
      b2.findSome? (fun r => (matchSchemeHost r.url).map (pyRstripChars "/")) := by
    intro b1
    induction b1 with
    | nil =>
      intro b2 h
      cases b2 with
      | nil => rfl
      | cons r t => exact Bool.noConfusion h
    | cons r1 t1 ih =>
      intro b2 h
      cases b2 with
      | nil => exact Bool.noConfusion h
      | cons r2 t2 =>
        simp only [batchEquivB, Bool.and_eq_true] at h
        have hu : r1.url = r2.url := by
          have := h.1
          simp only [requestEquivB, Bool.and_eq_true, decide_eq_true_eq] at this
          exact this.1.1.2
        rw [List.findSome?_cons, List.findSome?_cons, hu, ih t2 h.2]
  intro b1 b2 h
  unfold infer_base_url
  rw [scan b1 b2 h]

theorem foldl_buildStep_congr (env : PyEnv) (b : Option String) : ∀ (l1 l2 : List Request),
    batchEquivB l1 l2 = true → ∀ st : BuildState,
    l1.foldl (buildStep env b) st = l2.foldl (buildStep env b) st := by
  intro l1
  induction l1 with
  | nil =>
    intro l2 h st
    cases l2 with
    | nil => rfl
    | cons r t => exact Bool.noConfusion h
  | cons r1 t1 ih =>
    intro l2 h st
    cases l2 with
    | nil => exact Bool.noConfusion h
    | cons r2 t2 =>
      simp only [batchEquivB, Bool.and_eq_true] at h
      rw [List.foldl_cons, List.foldl_cons]
      have hstep : buildStep env b st r1 = buildStep env b st r2 := by
        unfold buildStep
        rw [buildRequestOp_congr env b r1 r2 h.1]
      rw [hstep]
      exact ih t2 h.2 _

/-- C10: two request batches that are identical except for the VALUES of
headers whose names are (case-insensitively) `authorization`, `x-api-key`
or `api-key` produce identical OpenAPI documents: `_mask_sensitive`
replaces those values with `"***"` before any other use, and the
synthesizer reads headers only through the masked map, so no credential
value appears in or influences the output. -/
theorem masked_header_noninterference (env : PyEnv) (project_name : String)
    (hint : Option String) (ai : Bool) (b1 b2 : List Request)
    (h : batchEquivB b1 b2 = true) :
    build_openapi_from_requests env project_name hint b1 ai =
      build_openapi_from_requests env project_name hint b2 ai := by
  unfold build_openapi_from_requests
  simp only [urlScan_congr hint b1 b2 h,
    foldl_buildStep_congr env (infer_base_url b2 hint) b1 b2 h]

theorem masked_header_noninterference_witness :
    batchEquivB
      [{ method := "GET", url := "https://e.com/a",
         headers := [("Authorization", "Bearer SECRET1"), ("X-Custom", "same")],
         body := none }]
      [{ method := "GET", url := "https://e.com/a",
         headers := [("Authorization", "Bearer SECRET2"), ("X-Custom", "same")],
         body := none }] = true ∧
    build_openapi_from_requests stubEnv "P" none
      [{ method := "GET", url := "https://e.com/a",
         headers := [("Authorization", "Bearer SECRET1"), ("X-Custom", "same")],
         body := none }] true =
    build_openapi_from_requests stubEnv "P" none
      [{ method := "GET", url := "https://e.com/a",
         headers := [("Authorization", "Bearer SECRET2"), ("X-Custom", "same")],
         body := none }] true :=
  ⟨rfl, masked_header_noninterference stubEnv "P" none true _ _ rfl⟩
